import Mathlib

/-!
Shallow embedding of `src/examples/web.rs` from the winit web example.

The example installs an event-loop callback that pattern-matches incoming
events (close request, about-to-wait, an "f" key release, redraw request)
and mutates a single window's fullscreen state, plus a web-only helper
module that fills a canvas-backed pixel buffer with a solid color and logs
events into a DOM list.  The external winit / web-sys types are embedded
with exactly the fields and variants the example touches; fallible external
calls are embedded as `Except` values supplied by an environment record, and
`.unwrap()` as a combinator that turns any error into an abrupt crash.
-/

namespace WinitWebExample

/-- Embeds winit `ElementState` (key press state). -/
inductive ElementState where
  | pressed
  | released
deriving DecidableEq

/-- Embeds winit `Key` (logical key): the example only distinguishes
`Key::Character(c)` from every other logical key. -/
inductive Key where
  | character (c : String)
  | other (name : String)
deriving DecidableEq

/-- Embeds the fields of winit `KeyEvent` that the example's pattern reads
(`logical_key` and `state`; the remaining fields are matched with `..`). -/
structure KeyEvent where
  logical_key : Key
  state : ElementState
deriving DecidableEq

/-- Embeds the winit `WindowEvent` variants relevant to the example: the three
it matches on plus representatives of the variants that reach the catch-all. -/
inductive WindowEvent where
  | closeRequested
  | redrawRequested
  | keyboardInput (event : KeyEvent)
  | resized (width : Nat) (height : Nat)
  | focused (f : Bool)
  | cursorMoved (x : Nat) (y : Nat)
  | destroyed
deriving DecidableEq

/-- Embeds winit `Event<()>`: the variants the example matches on plus the
other top-level variants, which all reach the catch-all arm. -/
inductive Event where
  | newEvents
  | windowEvent (window_id : Nat) (event : WindowEvent)
  | deviceEvent (device_id : Nat)
  | userEvent
  | suspended
  | resumed
  | aboutToWait
  | loopExiting
  | memoryWarning
deriving DecidableEq

/-- Embeds winit `Fullscreen`. -/
inductive Fullscreen where
  | exclusive (video_mode : Nat)
  | borderless (monitor : Option Nat)
deriving DecidableEq

/-- Embeds the web canvas handle (`HtmlCanvasElement`): the example reads its
`width()` and `height()`. -/
structure Canvas where
  width : Nat
  height : Nat
deriving DecidableEq

/-- Embeds the winit `Window` state the example reads and writes: its id
(`window.id()`), fullscreen state (`window.fullscreen()` /
`set_fullscreen`), and web canvas (`window.canvas()`, an `Option`). -/
structure Window where
  id : Nat
  fullscreen : Option Fullscreen
  canvas : Option Canvas
deriving DecidableEq

/-- Embeds `std::sync::Mutex`: a value together with a locked flag. -/
structure Mutex (α : Type) where
  value : α
  locked : Bool

/-- Embeds `Mutex::new`: a fresh mutex is unlocked. -/
def Mutex.new (a : α) : Mutex α := { value := a, locked := false }

/-- Embeds `Mutex::lock` on a single thread: it fails (returns `none`,
modelling a poisoned-lock `Err`) only when the mutex is already locked;
otherwise it returns the mutex with the lock held. -/
def Mutex.lock (m : Mutex α) : Option (Mutex α) :=
  if m.locked then none else some { m with locked := true }

/-- The panic message raised deliberately in the redraw arm of the example. -/
def deliberateMsg : String := "Simulating a panic in user code!"

/-- The panic message produced by `.unwrap()` on a failed external call. -/
def unwrapFailedMsg : String := "called unwrap on a failed external call"

/-- Observable result of one invocation of the event-loop callback: the
window's fullscreen state afterwards, whether `elwt.exit()` was called,
whether `window.request_redraw()` was called, and — if the invocation
panicked — the panic message together with whether a mutex lock was held at
the moment of the panic. -/
structure CallbackResult where
  fullscreen : Option Fullscreen
  exited : Bool
  redrawRequested : Bool
  panicInfo : Option (String × Bool)
deriving DecidableEq

/-- The do-nothing result: fullscreen unchanged, no exit, no redraw request,
no panic. -/
def noChange (w : Window) : CallbackResult :=
  { fullscreen := w.fullscreen, exited := false, redrawRequested := false,
    panicInfo := none }

/-- Embeds the body of the closure passed to `event_loop.run` in `main`
(the `match event { ... }`).  Arm by arm, in source order:
close request for this window exits; `AboutToWait` requests a redraw;
an `"f"` character key release for this window toggles borderless
fullscreen; a redraw request for this window wraps the window's canvas in
a fresh mutex, locks it, and panics while holding the lock; everything
else does nothing. -/
def callback (w : Window) (e : Event) : CallbackResult :=
  match e with
  | .windowEvent wid .closeRequested =>
      if wid == w.id then { noChange w with exited := true } else noChange w
  | .aboutToWait => { noChange w with redrawRequested := true }
  | .windowEvent wid (.keyboardInput ⟨.character c, .released⟩) =>
      if wid == w.id && c == "f" then
        if (w.fullscreen).isSome then
          { noChange w with fullscreen := none }
        else
          { noChange w with fullscreen := some (.borderless none) }
      else noChange w
  | .windowEvent wid .redrawRequested =>
      if wid == w.id then
        match w.canvas with
        | none => { noChange w with panicInfo := some (unwrapFailedMsg, false) }
        | some canvas =>
          match (Mutex.new canvas).lock with
          | none => { noChange w with panicInfo := some (unwrapFailedMsg, false) }
          | some guard =>
              { noChange w with panicInfo := some (deliberateMsg, guard.locked) }
      else noChange w
  | _ => noChange w

/-- The window state after delivering one `"f"` key release for the window's
own id: same window, fullscreen as set by the callback. -/
def afterFKeyRelease (w : Window) : Window :=
  { w with fullscreen :=
      (callback w (.windowEvent w.id
        (.keyboardInput ⟨.character "f", .released⟩))).fullscreen }

/-- Embeds the `js_sys::Date` accessors the logger reads. -/
structure Date where
  hours : Nat
  minutes : Nat
  seconds : Nat
  milliseconds : Nat
deriving DecidableEq

/-- Embeds Rust's `{:02}` format specifier: zero-pad to width 2. -/
def pad2 (n : Nat) : String :=
  if n < 10 then "0" ++ Nat.repr n else Nat.repr n

/-- Embeds Rust's `{:03}` format specifier: zero-pad to width 3. -/
def pad3 (n : Nat) : String :=
  if n < 10 then "00" ++ Nat.repr n
  else if n < 100 then "0" ++ Nat.repr n
  else Nat.repr n

/-- Embeds the timestamp prefix `"{:02}:{:02}:{:02}.{:03}: "` built from the
current date in `log_event`. -/
def formatTimestamp (d : Date) : String :=
  pad2 d.hours ++ ":" ++ pad2 d.minutes ++ ":" ++ pad2 d.seconds ++ "."
    ++ pad3 d.milliseconds ++ ": "

/-- Embeds the derived `Debug` rendering of a `WindowEvent`, as produced by
`format!("{event:?}")` in `log_event`. -/
def WindowEvent.debugStr : WindowEvent → String
  | .closeRequested => "CloseRequested"
  | .redrawRequested => "RedrawRequested"
  | .keyboardInput ⟨.character c, .pressed⟩ =>
      "KeyboardInput(Character(" ++ c ++ "), Pressed)"
  | .keyboardInput ⟨.character c, .released⟩ =>
      "KeyboardInput(Character(" ++ c ++ "), Released)"
  | .keyboardInput ⟨.other n, .pressed⟩ =>
      "KeyboardInput(" ++ n ++ ", Pressed)"
  | .keyboardInput ⟨.other n, .released⟩ =>
      "KeyboardInput(" ++ n ++ ", Released)"
  | .resized w h => "Resized(" ++ Nat.repr w ++ ", " ++ Nat.repr h ++ ")"
  | .focused f => "Focused(" ++ toString f ++ ")"
  | .cursorMoved x y => "CursorMoved(" ++ Nat.repr x ++ ", " ++ Nat.repr y ++ ")"
  | .destroyed => "Destroyed"

/-- Embeds the first `match` of `log_event`: which events produce a log
message, and that message's text.  `RedrawRequested` window events yield
`None`; every other window event yields the inner event's debug text;
`Resumed` and `Suspended` yield the outer event's debug text; every other
event yields `None`. -/
def eventLogMessage : Event → Option String
  | .windowEvent _ .redrawRequested => none
  | .windowEvent _ ev => some ev.debugStr
  | .resumed => some "Resumed"
  | .suspended => some "Suspended"
  | _ => none

/-- Embeds `log_event`, with the DOM `<ul>` modelled as the list of its
entries' text contents, first child first.  When the event produces a
message, a `<li>` holding the timestamp-prefixed message is created and
inserted with `insert_before(&log, log_list.first_child())`, i.e. before
the current first entry. -/
def log_event (log_list : List String) (d : Date) (e : Event) : List String :=
  match eventLogMessage e with
  | none => log_list
  | some msg => (formatTimestamp d ++ msg) :: log_list

/-- Crash outcome of a `.unwrap()` on a failed external call, tagged with the
call that failed. -/
inductive Crash where
  | unwrapFailed (call : String)
deriving DecidableEq

/-- Results of the fallible external winit / softbuffer / web-sys calls that
`main` and `insert_canvas_and_create_log_list` make, supplied as an
environment.  Each field is the outcome the external library would return
for that call. -/
structure ExternalCalls where
  eventLoopNew : Except String Unit
  windowBuild : Except String Window
  canvasGet : Except String Canvas
  surfaceFromCanvas : Except String Unit
  surfaceResize : Except String Unit
  surfaceBufferMut : Except String Unit
  bufferPresent : Except String Unit
  webSysWindow : Except String Unit
  getDocument : Except String Unit
  getBody : Except String Unit
  setMargin : Except String Unit
  createHeader : Except String Unit
  appendHeader : Except String Unit
  createList : Except String Unit
  appendList : Except String Unit

/-- Whether an external call succeeded. -/
def okB : Except String α → Bool
  | .ok _ => true
  | .error _ => false

/-- Whether the embedded program reached its result without crashing. -/
def isOkB : Except Crash α → Bool
  | .ok _ => true
  | .error _ => false

/-- Embeds `<fallible call>.unwrap()` followed by the rest of the program:
on success the program continues with the value; on failure it terminates
abruptly, recording which call's unwrap fired. -/
def unwrapCall (r : Except String α) (call : String)
    (k : α → Except Crash β) : Except Crash β :=
  match r with
  | .ok a => k a
  | .error _ => .error (.unwrapFailed call)

/-- Embeds `NonZeroU32::new(n).unwrap()` followed by the rest of the program:
`NonZeroU32::new` returns `None` exactly when `n = 0`, and the `.unwrap()`
turns that into an abrupt termination. -/
def nonZeroUnwrap (n : Nat) (call : String)
    (k : Nat → Except Crash β) : Except Crash β :=
  if n = 0 then .error (.unwrapFailed call) else k n

/-- The solid color literal `0xFFF0000` the example writes into every pixel. -/
def fillColor : Nat := 0xFFF0000

/-- The pixel buffer handed out by `surface.buffer_mut()` after a resize to
`w × h`: one `u32` per pixel, contents not yet meaningful (modelled as 0). -/
def surfaceBuffer (w h : Nat) : List Nat :=
  List.replicate (w * h) 0

/-- Embeds `buffer.fill(v)`: every element of the buffer is replaced by `v`. -/
def bufferFill (buffer : List Nat) (v : Nat) : List Nat :=
  buffer.map (fun _ => v)

/-- Embeds `insert_canvas_and_create_log_list`, call by call in source order:
get the window's canvas, build a softbuffer surface from it, resize the
surface to the canvas's nonzero width and height, take the buffer, fill it
with `0xFFF0000`, present it, then build the DOM (window, document, body,
canvas margin style, `<h2>` header appended, `<ul>` log list appended).
Every fallible step goes through `.unwrap()`.  The result is the presented
pixel buffer together with the (initially empty) log list. -/
def insert_canvas_and_create_log_list (env : ExternalCalls) :
    Except Crash (List Nat × List String) :=
  unwrapCall env.canvasGet "window.canvas()" fun canvas =>
  unwrapCall env.surfaceFromCanvas "Surface::from_canvas" fun _ =>
  nonZeroUnwrap canvas.width "NonZeroU32::new(width)" fun w =>
  nonZeroUnwrap canvas.height "NonZeroU32::new(height)" fun h =>
  unwrapCall env.surfaceResize "surface.resize" fun _ =>
  unwrapCall env.surfaceBufferMut "surface.buffer_mut" fun _ =>
  let buffer := surfaceBuffer w h
  let buffer := bufferFill buffer fillColor
  unwrapCall env.bufferPresent "buffer.present" fun _ =>
  unwrapCall env.webSysWindow "web_sys::window" fun _ =>
  unwrapCall env.getDocument "window.document" fun _ =>
  unwrapCall env.getBody "document.body" fun _ =>
  unwrapCall env.setMargin "style.set_property(margin)" fun _ =>
  unwrapCall env.createHeader "document.create_element(h2)" fun _ =>
  unwrapCall env.appendHeader "body.append_child(log_header)" fun _ =>
  unwrapCall env.createList "document.create_element(ul)" fun _ =>
  unwrapCall env.appendList "body.append_child(log_list)" fun _ =>
  .ok (buffer, [])

/-- Embeds the setup portion of `main` before the event loop runs:
`EventLoop::new().unwrap()`, `builder.build(&event_loop).unwrap()`, then
(on the web target) `insert_canvas_and_create_log_list`. -/
def mainSetup (env : ExternalCalls) :
    Except Crash (Window × List Nat × List String) :=
  unwrapCall env.eventLoopNew "EventLoop::new" fun _ =>
  unwrapCall env.windowBuild "builder.build" fun window =>
  match insert_canvas_and_create_log_list env with
  | .error c => .error c
  | .ok (buffer, log_list) => .ok (window, buffer, log_list)

/-- Whether every fallible external call of the setup path succeeds,
including the two `NonZeroU32::new` unwraps on the canvas dimensions. -/
def allCallsOk (env : ExternalCalls) : Bool :=
  okB env.eventLoopNew && okB env.windowBuild && okB env.canvasGet &&
  okB env.surfaceFromCanvas &&
  (match env.canvasGet with
   | .ok c => decide (c.width ≠ 0) && decide (c.height ≠ 0)
   | .error _ => false) &&
  okB env.surfaceResize && okB env.surfaceBufferMut && okB env.bufferPresent &&
  okB env.webSysWindow && okB env.getDocument && okB env.getBody &&
  okB env.setMargin && okB env.createHeader && okB env.appendHeader &&
  okB env.createList && okB env.appendList

/-- Claim C1: when the event loop delivers a keyboard input event for the
example window whose logical key is the character "f" in the Released
state, the handler toggles borderless fullscreen: if the window's
fullscreen state is currently `some` it is set to `none`, otherwise it is
set to `some (Fullscreen.borderless none)`. -/
theorem c1_f_release_toggles_fullscreen (w : Window) :
    (callback w (.windowEvent w.id
      (.keyboardInput ⟨.character "f", .released⟩))).fullscreen =
      if (w.fullscreen).isSome then none
      else some (Fullscreen.borderless none) := by
  simp only [callback, noChange, beq_self_eq_true, Bool.and_self, if_true]
  split <;> rfl

/-- Claim C2: for every `RedrawRequested` window event whose window id equals
the example window's id, the handler wraps the window's canvas in a fresh
mutex, acquires the exclusive lock, and raises the deliberate panic
"Simulating a panic in user code!" while the lock is still held (the
`true` flag of `panicInfo`); the branch never returns normally
(`panicInfo` is `some`, and no exit, redraw request, or fullscreen change
happens). -/
theorem c2_redraw_panics_while_holding_lock (w : Window) (c : Canvas)
    (h : w.canvas = some c) :
    callback w (.windowEvent w.id .redrawRequested) =
      { fullscreen := w.fullscreen, exited := false, redrawRequested := false,
        panicInfo := some (deliberateMsg, true) } := by
  simp [callback, noChange, h, Mutex.new, Mutex.lock]

/-- Witness for C2 at a concrete window holding a canvas. -/
theorem c2_witness :
    (⟨0, none, some ⟨1, 1⟩⟩ : Window).canvas = some ⟨1, 1⟩ ∧
    callback ⟨0, none, some ⟨1, 1⟩⟩ (.windowEvent 0 .redrawRequested) =
      { fullscreen := none, exited := false, redrawRequested := false,
        panicInfo := some (deliberateMsg, true) } :=
  ⟨rfl, c2_redraw_panics_while_holding_lock ⟨0, none, some ⟨1, 1⟩⟩ ⟨1, 1⟩ rfl⟩

/-- Claim C3 counterexample: the claim says the log is append-only, each new
entry added after all existing entries.  At a concrete input the new entry
is in fact inserted before the existing entry (the code calls
`insert_before(&log, log_list.first_child())`), so the result differs from
the appended form the claim demands. -/
theorem c3_counterexample :
    log_event ["a"] ⟨1, 2, 3, 4⟩ .resumed = ["01:02:03.004: Resumed", "a"] ∧
    log_event ["a"] ⟨1, 2, 3, 4⟩ .resumed ≠ ["a", "01:02:03.004: Resumed"] := by
  constructor
  · rfl
  · decide

/-- Claim C3 as amended: every logged event produces an entry whose text is
the event's debug representation prefixed with a timestamp (hours,
minutes, seconds, milliseconds), and the list is used as a prepend-only
log: each new entry is inserted before all existing entries, and existing
entries are never modified or removed (the result is exactly the new
entry consed onto the old list). -/
theorem c3_log_prepends_timestamped_entry (l : List String) (d : Date)
    (e : Event) (msg : String) (h : eventLogMessage e = some msg) :
    log_event l d e = (formatTimestamp d ++ msg) :: l ∧
    (log_event l d e).head? = some (formatTimestamp d ++ msg) ∧
    (log_event l d e).tail = l := by
  simp [log_event, h]

/-- Witness for the amended C3 at a concrete log, date, and event. -/
theorem c3_witness :
    eventLogMessage .resumed = some "Resumed" ∧
    (log_event ["a"] ⟨1, 2, 3, 4⟩ .resumed =
        (formatTimestamp ⟨1, 2, 3, 4⟩ ++ "Resumed") :: ["a"] ∧
      (log_event ["a"] ⟨1, 2, 3, 4⟩ .resumed).head? =
        some (formatTimestamp ⟨1, 2, 3, 4⟩ ++ "Resumed") ∧
      (log_event ["a"] ⟨1, 2, 3, 4⟩ .resumed).tail = ["a"]) :=
  ⟨rfl, c3_log_prepends_timestamped_entry ["a"] ⟨1, 2, 3, 4⟩ .resumed "Resumed" rfl⟩

/-- Claim C4: when a `CloseRequested` window event arrives whose window id
equals the example window's id, the handler exits the event loop and
performs no other action: the fullscreen state is unchanged, no redraw is
requested, and no panic is raised. -/
theorem c4_close_requested_exits (w : Window) :
    callback w (.windowEvent w.id .closeRequested) =
      { fullscreen := w.fullscreen, exited := true, redrawRequested := false,
        panicInfo := none } := by
  simp [callback, noChange]

/-- Claim C5: for every `AboutToWait` event the handler requests a redraw and
performs no other state change (fullscreen unchanged, no exit, no panic),
and `AboutToWait` is the only event whose handling requests a redraw. -/
theorem c5_about_to_wait_requests_redraw (w : Window) (e : Event) :
    callback w .aboutToWait =
      { fullscreen := w.fullscreen, exited := false, redrawRequested := true,
        panicInfo := none } ∧
    ((callback w e).redrawRequested = true ↔ e = .aboutToWait) := by
  refine ⟨rfl, ?_⟩
  cases e <;> try simp [callback, noChange]
  case windowEvent wid ev =>
    cases ev
    case closeRequested =>
      simp only [callback]
      split <;> simp [noChange]
    case redrawRequested =>
      simp only [callback]
      split
      · cases w.canvas <;> simp [Mutex.new, Mutex.lock, noChange]
      · simp [noChange]
    case keyboardInput ke =>
      obtain ⟨k, s⟩ := ke
      cases k <;> cases s
      case character.released c =>
        simp only [callback]
        split
        · split <;> simp [noChange]
        · simp [noChange]
      all_goals simp [callback, noChange]
    all_goals simp [callback, noChange]

/-- Claim C6: every fallible external call of the setup path (event-loop
creation, window building, canvas and surface access, DOM element creation
and insertion, including the two `NonZeroU32::new` unwraps on the canvas
dimensions) is handled by unwrapping, so the setup reaches its result
exactly when every call succeeds and any failure terminates the program
abruptly; and on the event-handling path the only panic is the single
deliberate one in the redraw arm for the example window's own id. -/
theorem c6_unwrap_crashes_and_single_deliberate_panic (env : ExternalCalls)
    (w : Window) (e : Event) (hc : (w.canvas).isSome = true) :
    (isOkB (mainSetup env) = allCallsOk env) ∧
    ((callback w e).panicInfo =
      if e = .windowEvent w.id .redrawRequested then some (deliberateMsg, true)
      else none) := by
  constructor
  · obtain ⟨e1, e2, ec, e3, e4, e5, e6, e7, e8, e9, e10, e11, e12, e13, e14⟩ := env
    simp only [mainSetup, insert_canvas_and_create_log_list, allCallsOk,
      unwrapCall, nonZeroUnwrap, okB, isOkB]
    cases e1
    · rfl
    cases e2
    · rfl
    cases ec
    · rfl
    case ok c =>
    obtain ⟨cw, ch⟩ := c
    cases e3
    · rfl
    cases cw
    · rfl
    cases ch
    · rfl
    cases e4
    · rfl
    cases e5
    · rfl
    cases e6
    · rfl
    cases e7
    · rfl
    cases e8
    · rfl
    cases e9
    · rfl
    cases e10
    · rfl
    cases e11
    · rfl
    cases e12
    · rfl
    cases e13
    · rfl
    cases e14
    · rfl
    rfl
  · obtain ⟨c, hcv⟩ := Option.isSome_iff_exists.mp hc
    cases e <;> try simp [callback, noChange]
    case windowEvent wid ev =>
      cases ev
      case redrawRequested =>
        simp only [callback]
        split
        case isTrue h =>
          simp_all [Mutex.new, Mutex.lock, noChange]
        case isFalse h =>
          simp [noChange, h]
      case closeRequested =>
        simp only [callback]
        split <;> simp [noChange]
      case keyboardInput ke =>
        obtain ⟨k, s⟩ := ke
        cases k <;> cases s
        case character.released c =>
          simp only [callback]
          split
          · split <;> simp [noChange]
          · simp [noChange]
        all_goals simp [callback, noChange]
      all_goals simp [callback, noChange]

/-- Witness for C6 at a concrete environment whose calls all succeed, a
window with a canvas, and an `AboutToWait` event. -/
theorem c6_witness :
    ((⟨0, none, some ⟨4, 4⟩⟩ : Window).canvas).isSome = true ∧
    ((isOkB (mainSetup ⟨.ok (), .ok ⟨0, none, some ⟨4, 4⟩⟩, .ok ⟨4, 4⟩, .ok (),
        .ok (), .ok (), .ok (), .ok (), .ok (), .ok (), .ok (), .ok (), .ok (),
        .ok (), .ok ()⟩) =
      allCallsOk ⟨.ok (), .ok ⟨0, none, some ⟨4, 4⟩⟩, .ok ⟨4, 4⟩, .ok (),
        .ok (), .ok (), .ok (), .ok (), .ok (), .ok (), .ok (), .ok (), .ok (),
        .ok (), .ok ()⟩) ∧
    ((callback ⟨0, none, some ⟨4, 4⟩⟩ .aboutToWait).panicInfo =
      if Event.aboutToWait =
          .windowEvent (⟨0, none, some ⟨4, 4⟩⟩ : Window).id .redrawRequested
      then some (deliberateMsg, true) else none)) :=
  ⟨rfl, c6_unwrap_crashes_and_single_deliberate_panic
    ⟨.ok (), .ok ⟨0, none, some ⟨4, 4⟩⟩, .ok ⟨4, 4⟩, .ok (), .ok (), .ok (),
      .ok (), .ok (), .ok (), .ok (), .ok (), .ok (), .ok (), .ok (), .ok ()⟩
    ⟨0, none, some ⟨4, 4⟩⟩ .aboutToWait rfl⟩

/-- Claim C7: when every external call succeeds and the canvas dimensions are
nonzero, `insert_canvas_and_create_log_list` resizes the surface to the
canvas's width and height, fills the whole buffer with the single solid
color `0xFFF0000`, and presents it: the presented buffer is exactly
`width * height` copies of that one value (so every pixel holds the same
value), and the returned log list is empty. -/
theorem c7_surface_filled_with_solid_color (env : ExternalCalls) (c : Canvas)
    (h1 : env.canvasGet = .ok c)
    (h2 : env.surfaceFromCanvas = .ok ())
    (h3 : env.surfaceResize = .ok ())
    (h4 : env.surfaceBufferMut = .ok ())
    (h5 : env.bufferPresent = .ok ())
    (h6 : env.webSysWindow = .ok ())
    (h7 : env.getDocument = .ok ())
    (h8 : env.getBody = .ok ())
    (h9 : env.setMargin = .ok ())
    (h10 : env.createHeader = .ok ())
    (h11 : env.appendHeader = .ok ())
    (h12 : env.createList = .ok ())
    (h13 : env.appendList = .ok ())
    (hw : c.width ≠ 0) (hh : c.height ≠ 0) :
    insert_canvas_and_create_log_list env =
      .ok (List.replicate (c.width * c.height) fillColor, []) := by
  simp [insert_canvas_and_create_log_list, unwrapCall, nonZeroUnwrap,
    h1, h2, h3, h4, h5, h6, h7, h8, h9, h10, h11, h12, h13, hw, hh,
    bufferFill, surfaceBuffer, List.map_replicate]

/-- Witness for C7 at a concrete all-successful environment with a 2 × 3
canvas. -/
theorem c7_witness :
    (⟨2, 3⟩ : Canvas).width ≠ 0 ∧ (⟨2, 3⟩ : Canvas).height ≠ 0 ∧
    insert_canvas_and_create_log_list ⟨.ok (), .ok ⟨0, none, some ⟨2, 3⟩⟩,
        .ok ⟨2, 3⟩, .ok (), .ok (), .ok (), .ok (), .ok (), .ok (), .ok (),
        .ok (), .ok (), .ok (), .ok (), .ok ()⟩ =
      .ok (List.replicate (2 * 3) fillColor, []) :=
  ⟨by decide, by decide,
    c7_surface_filled_with_solid_color
      ⟨.ok (), .ok ⟨0, none, some ⟨2, 3⟩⟩, .ok ⟨2, 3⟩, .ok (), .ok (), .ok (),
        .ok (), .ok (), .ok (), .ok (), .ok (), .ok (), .ok (), .ok (), .ok ()⟩
      ⟨2, 3⟩ rfl rfl rfl rfl rfl rfl rfl rfl rfl rfl rfl rfl rfl
      (by decide) (by decide)⟩

/-- Claim C8: the "f" key-release handler is an involution on the window's
fullscreen on/off state: processing two consecutive "f" key releases for
the example window restores whether the window was fullscreen. -/
theorem c8_double_f_release_restores_fullscreen (w : Window) :
    ((afterFKeyRelease (afterFKeyRelease w)).fullscreen).isSome =
      ((w.fullscreen)).isSome := by
  cases hf : w.fullscreen <;>
    simp [afterFKeyRelease, callback, noChange, hf]

/-- Claim C9: every delivered event that matches none of the four handled
patterns — close request for this window, `AboutToWait`, "f" character key
release for this window, redraw request for this window — leaves the
fullscreen state unchanged, requests no redraw, does not exit, and raises
no panic. -/
theorem c9_unmatched_events_are_noops (w : Window) (e : Event)
    (h1 : e ≠ .windowEvent w.id .closeRequested)
    (h2 : e ≠ .aboutToWait)
    (h3 : e ≠ .windowEvent w.id (.keyboardInput ⟨.character "f", .released⟩))
    (h4 : e ≠ .windowEvent w.id .redrawRequested) :
    callback w e = noChange w := by
  cases e <;> try rfl
  case aboutToWait => exact absurd rfl h2
  case windowEvent wid ev =>
    cases ev
    case closeRequested =>
      simp only [callback]
      split
      case isTrue h => exact absurd (by simp_all) h1
      case isFalse h => rfl
    case redrawRequested =>
      simp only [callback]
      split
      case isTrue h => exact absurd (by simp_all) h4
      case isFalse h => rfl
    case keyboardInput ke =>
      obtain ⟨k, s⟩ := ke
      cases k <;> cases s <;> try rfl
      case character.released c =>
        simp only [callback]
        split
        case isTrue h =>
          simp only [Bool.and_eq_true, beq_iff_eq] at h
          exact absurd (by simp [h.1, h.2]) h3
        case isFalse h => rfl
    all_goals rfl

/-- Witness for C9 at a close request carrying a window id different from the
example window's. -/
theorem c9_witness :
    (Event.windowEvent 1 .closeRequested ≠
      .windowEvent (⟨0, none, none⟩ : Window).id .closeRequested) ∧
    (Event.windowEvent 1 .closeRequested ≠ .aboutToWait) ∧
    (Event.windowEvent 1 .closeRequested ≠
      .windowEvent (⟨0, none, none⟩ : Window).id
        (.keyboardInput ⟨.character "f", .released⟩)) ∧
    (Event.windowEvent 1 .closeRequested ≠
      .windowEvent (⟨0, none, none⟩ : Window).id .redrawRequested) ∧
    callback ⟨0, none, none⟩ (.windowEvent 1 .closeRequested) =
      noChange ⟨0, none, none⟩ :=
  ⟨by decide, by decide, by decide, by decide,
    c9_unmatched_events_are_noops ⟨0, none, none⟩ (.windowEvent 1 .closeRequested)
      (by decide) (by decide) (by decide) (by decide)⟩

/-- Claim C10: `log_event` creates a log entry (prepends one entry to the
list) exactly for window events other than `RedrawRequested` and for the
`Resumed` and `Suspended` events; `RedrawRequested` window events and all
other event variants produce no entry. -/
theorem c10_log_entry_exactly_for_logged_variants (l : List String) (d : Date)
    (e : Event) :
    (∃ s, log_event l d e = s :: l) ↔
      ((∃ wid ev, e = .windowEvent wid ev ∧ ev ≠ .redrawRequested) ∨
        e = .resumed ∨ e = .suspended) := by
  cases e <;> try simp [log_event, eventLogMessage]
  case windowEvent wid ev =>
    cases ev <;> simp [log_event, eventLogMessage]
    all_goals exact ⟨_, _, ⟨rfl, rfl⟩, by simp⟩

end WinitWebExample
